import Mathlib

/-!
Shallow embedding of the authentication & pagination core of the sanic_demo_v2
blog backend (src/services/auth.py, src/middlewares/auth.py,
src/apps/auth/routes.py, src/core/pagination.py, src/config.py).

JWT strings are modelled symbolically: a token is either a well-formed JWS
signed with some key and algorithm, carrying a payload, or an undecodable
string.  `jwt.decode(tok, secret, algorithms=[alg])` (PyJWT, default options)
verifies the signature and algorithm and — by default — also validates a
present `exp` claim, raising `ExpiredSignatureError` (a `PyJWTError`) when
`exp <= now`; absence of `exp` is not an error under default options.
Timestamps are epoch seconds as Int.  passlib's
`CryptContext(schemes=["bcrypt"]).verify` is modelled as an idealized
collision-free comparison on well-formed bcrypt digests, and as a raised
`UnknownHashError` (the `Except.error` branch) on a digest it cannot identify.
Python `int(x)` on the `sub` claim is modelled by `pyInt` (raising, i.e.
`none`, on a non-integer string) and raises `TypeError` when `x` is `None`.
-/

namespace SanicDemo

/-- config.py: module-level JWT settings used by services/auth.py and
middlewares/auth.py (the `Settings` pydantic class is a separate object not
used by the token code). -/
def JWT_SECRET : String := "your-secret-key"

def JWT_ALGORITHM : String := "HS256"

/-- config.py: `JWT_ACCESS_TOKEN_EXPIRES = timedelta(minutes=15)`, in seconds. -/
def JWT_ACCESS_TOKEN_EXPIRES : Int := 900

/-- config.py: `JWT_REFRESH_TOKEN_EXPIRES = timedelta(days=30)`, in seconds. -/
def JWT_REFRESH_TOKEN_EXPIRES : Int := 2592000

/-- A decoded JWT payload as produced by this codebase: `sub` is a string when
present (create_token stores `str(subject)`), `exp` an epoch timestamp when
present, and `refresh` records the presence of the `"refresh": True` marker. -/
structure Payload where
  sub : Option String
  exp : Option Int
  refresh : Bool
deriving DecidableEq, Repr

/-- A JWT string, modelled symbolically: either a structurally well-formed JWS
signed with `key` under algorithm `alg` and carrying `payload`, or a string
that does not decode at all. -/
inductive Token where
  | signed (key : String) (alg : String) (payload : Payload)
  | garbage (s : String)
deriving DecidableEq, Repr

/-- Signature/structure verification of PyJWT, without claim validation:
returns the payload when the token is a well-formed JWS signed with `secret`
under `alg`, otherwise the `InvalidSignatureError` / `DecodeError` /
`InvalidAlgorithmError` outcome (`none`). -/
def verifySignature (secret alg : String) : Token → Option Payload
  | .signed k a p => if k = secret ∧ a = alg then some p else none
  | .garbage _ => none

/-- PyJWT's default `exp` validation at time `now` (leeway 0): a token is
expired when an `exp` claim is present and `exp <= now`; a payload without
`exp` is accepted under default options. -/
def tokenExpiredAt (now : Int) (p : Payload) : Bool :=
  match p.exp with
  | some e => decide (e ≤ now)
  | none => false

/-- `jwt.decode(t, secret, algorithms=[alg])` with default options at time
`now`: signature/algorithm/structure check, then `exp` validation; any
failure raises a `PyJWTError`, modelled as `none`. -/
def jwtDecode (secret alg : String) (now : Int) (t : Token) : Option Payload :=
  match verifySignature secret alg t with
  | none => none
  | some p => if tokenExpiredAt now p then none else some p

/-- services/auth.py `decode_token`: `jwt.decode` with the configured secret
and algorithm, returning `None` on any `PyJWTError`. -/
def decode_token (now : Int) (t : Token) : Option Payload :=
  jwtDecode JWT_SECRET JWT_ALGORITHM now t

/-- The default token duration chosen by `create_token` when no truthy
`expires_delta` is supplied. -/
def defaultTokenDuration (is_refresh : Bool) : Int :=
  if is_refresh then JWT_REFRESH_TOKEN_EXPIRES else JWT_ACCESS_TOKEN_EXPIRES

/-- services/auth.py `create_token(subject, expires_delta, is_refresh)` at
current time `now`: payload `{exp: now + delta, sub: str(subject)}` plus
`refresh: True` when `is_refresh`, signed with the configured secret and
algorithm.  The source branches on `if expires_delta:` — Python truthiness —
so both an absent `expires_delta` and the falsy `timedelta(0)` fall through
to the refresh/access default duration. -/
def create_token (subject : Int) (now : Int) (expires_delta : Option Int)
    (is_refresh : Bool) : Token :=
  let expire : Int := now + (match expires_delta with
    | some d => if d = 0 then defaultTokenDuration is_refresh else d
    | none => defaultTokenDuration is_refresh)
  .signed JWT_SECRET JWT_ALGORITHM
    { sub := some (toString subject), exp := some expire, refresh := is_refresh }

/-- services/auth.py `create_access_token(subject)`: `create_token` with the
access-token duration passed positionally as `expires_delta`. -/
def create_access_token (subject : Int) (now : Int) : Token :=
  create_token subject now (some JWT_ACCESS_TOKEN_EXPIRES) false

/-- services/auth.py `create_refresh_token(subject)`: `create_token` with the
refresh-token duration and `is_refresh=True`. -/
def create_refresh_token (subject : Int) (now : Int) : Token :=
  create_token subject now (some JWT_REFRESH_TOKEN_EXPIRES) true

/-- Digits-only parse helper for `pyInt`. -/
def decDigits? (cs : List Char) : Option Nat :=
  if cs.isEmpty then none
  else cs.foldlM (fun acc c =>
    if c.isDigit then some (10 * acc + (c.toNat - 48)) else none) 0

/-- Surrounding-whitespace stripping, as Python `int` applies to its string
argument. -/
def pyStrip (cs : List Char) : List Char :=
  ((cs.dropWhile Char.isWhitespace).reverse.dropWhile Char.isWhitespace).reverse

/-- Python `int(s)` on a string: optional surrounding whitespace, optional
sign, then decimal digits; any other shape raises `ValueError` (`none`).
(Digit-group underscores, accepted by CPython, are not modelled; no token in
this codebase carries them since `sub` is `str(subject)`.) -/
def pyInt (s : String) : Option Int :=
  match pyStrip s.toList with
  | '-' :: rest => (decDigits? rest).map (fun n => -(n : Int))
  | '+' :: rest => (decDigits? rest).map (fun n => (n : Int))
  | cs => (decDigits? cs).map (fun n => (n : Int))

/-- middlewares/auth.py `PUBLIC_PATHS`. -/
def PUBLIC_PATHS : List String := ["/", "/auth/login", "/auth/register", "/auth/refresh"]

/-- The `Authorization` header value: either `"Bearer " ++ tok` for a token
string `tok`, or any value without the `"Bearer "` prefix (including the
empty string, which is also falsy in Python). -/
inductive AuthHeader where
  | bearer (t : Token)
  | other (s : String)
deriving DecidableEq, Repr

/-- What `jwt_middleware` does to the request context: leave `ctx.user`
untouched (no assignment at all), assign it (`none` = Python `None`), or
escape with an uncaught Python exception. -/
inductive MwOutcome where
  | noSet
  | setUser (u : Option Int)
  | pyError
deriving DecidableEq, Repr

/-- middlewares/auth.py `jwt_middleware(request)`, as a function of the
request path, the `Authorization` header (absent = `None`), and the current
time.  Faithful to the source: public paths return before touching
`ctx.user`; a missing or non-`Bearer ` header sets `ctx.user = None`;
`jwt.decode` failures (`PyJWTError`, including `ExpiredSignatureError`) set
`ctx.user = None`; a falsy or past `exp` sets `ctx.user = None`; otherwise
`ctx.user = int(payload.get('sub'))`, where `int(None)` raises `TypeError`
and `int` of a non-integer string raises `ValueError` — neither is a
`PyJWTError`, so both escape the `except` clause. -/
def jwt_middleware (path : String) (auth_header : Option AuthHeader)
    (now : Int) : MwOutcome :=
  if path ∈ PUBLIC_PATHS then
    .noSet
  else
    match auth_header with
    | none => .setUser none
    | some (.other _) => .setUser none
    | some (.bearer t) =>
      match jwtDecode JWT_SECRET JWT_ALGORITHM now t with
      | none => .setUser none
      | some payload =>
        match payload.exp with
        | none => .setUser none
        | some e =>
          if e = 0 then .setUser none
          else if now > e then .setUser none
          else
            match payload.sub with
            | none => .pyError
            | some s =>
              match pyInt s with
              | none => .pyError
              | some uid => .setUser (some uid)

/-- Python truthiness of `request.ctx.user : Option Int`: `None` and `0` are
falsy. -/
def pyTruthyUser : Option Int → Bool
  | none => false
  | some n => decide (n ≠ 0)

/-- middlewares/auth.py `protected()` guard condition: the wrapped handler
raises `Unauthorized("Please login first")` exactly when
`not request.ctx.user` holds. -/
def protectedRejects (u : Option Int) : Bool :=
  !(pyTruthyUser u)

/-- Result of a Python call that either returns a value or raises an
exception that the caller does not catch. -/
inductive PyRes (α : Type) where
  | val (a : α)
  | raised
deriving DecidableEq, Repr

/-- A stored password digest: either a well-formed bcrypt hash (identified by
the password it hashes — an idealized collision-free model of the salted
digest) or a string passlib cannot identify as any configured scheme. -/
inductive Digest where
  | bcrypt (pw : String)
  | malformed (s : String)
deriving DecidableEq, Repr

/-- services/auth.py `verify_password(plain_password, hashed_password)`:
`pwd_context.verify`.  On a well-formed bcrypt digest it returns whether the
plaintext matches; on a digest it cannot identify, passlib raises
`UnknownHashError` (a `ValueError`), modelled as `PyRes.raised`. -/
def verify_password (plain_password : String) : Digest → PyRes Bool
  | .bcrypt pw => .val (decide (plain_password = pw))
  | .malformed _ => .raised

/-- A row of the `users` table (models/user.py), restricted to the fields the
auth service reads. -/
structure UserRec where
  id : Int
  username : String
  password_hash : Digest
deriving DecidableEq, Repr

/-- `User.get_or_none(username=...)` over a database state: the row with that
username, if any (models/user.py declares `username` unique, so at most one
row matches). -/
def getOrNone (db : List UserRec) (username : String) : Option UserRec :=
  db.find? (fun u => u.username = username)

/-- services/auth.py `authenticate_user(username, password)`: look up the
user; return `False` (`PyRes.val none`) when absent, `False` when
`verify_password` rejects, the user on success; an exception escaping
`verify_password` propagates. -/
def authenticate_user (db : List UserRec) (username password : String) :
    PyRes (Option UserRec) :=
  match getOrNone db username with
  | none => .val none
  | some user =>
    match verify_password password user.password_hash with
    | .raised => .raised
    | .val b => if b then .val (some user) else .val none

/-- Outcome of `POST /auth/refresh` (apps/auth/routes.py `refresh_token`):
400 when the body carries no (or an empty, hence falsy) token string, 401 on
an invalid refresh token, 200 with a fresh access token on success, or an
uncaught Python exception from `int(payload.get("sub"))`. -/
inductive RefreshResult where
  | badRequest
  | unauthorized
  | ok (access : Token)
  | pyError
deriving DecidableEq, Repr

/-- Python falsiness of `data.get("refresh_token")`: `None` or the empty
string. -/
def refreshTokenFalsy : Option Token → Bool
  | none => true
  | some (.garbage s) => s.isEmpty
  | some (.signed _ _ _) => false

/-- apps/auth/routes.py `refresh_token(request)` after JSON body extraction:
`if not refresh_token` ⇒ 400; `decode_token` failure or `"refresh" not in
payload` ⇒ 401; otherwise `user_id = int(payload.get("sub"))` (which can
raise) and a new access token is issued for it via `create_access_token` —
no user-table lookup occurs on this path. -/
def refresh_route (refresh_token : Option Token) (now : Int) : RefreshResult :=
  if refreshTokenFalsy refresh_token then .badRequest
  else
    match refresh_token with
    | none => .badRequest
    | some t =>
      match decode_token now t with
      | none => .unauthorized
      | some payload =>
        if payload.refresh = false then .unauthorized
        else
          match payload.sub with
          | none => .pyError
          | some s =>
            match pyInt s with
            | none => .pyError
            | some uid => .ok (create_access_token uid now)

/-- Spec-side failure condition of the refresh operation, transcribed from
the specification's words for comparison with `refresh_route`: the operation
must fail with InvalidToken exactly when TokenCodec verification fails, the
token is expired, or the refresh marker is absent. -/
def specRefreshInvalid (now : Int) (t : Token) : Bool :=
  match verifySignature JWT_SECRET JWT_ALGORITHM t with
  | none => true
  | some p => tokenExpiredAt now p || !p.refresh

/-- core/pagination.py `PageInfo`. -/
structure PageInfo where
  total_items : Nat
  total_pages : Nat
  current_page : Nat
  page_size : Nat
  has_next : Bool
  has_previous : Bool
deriving DecidableEq, Repr

/-- core/pagination.py `PaginatedResponse`. -/
structure PaginatedResponse (α : Type) where
  items : List α
  page_info : PageInfo
deriving DecidableEq, Repr

/-- core/pagination.py `paginate_queryset(queryset, params)` without a
transform function; the queryset is an ordered list, `count()` its length,
`offset(skip).limit(page_size)` is drop-then-take.
`math.ceil(total_items / params.page_size)` on nonnegative integers with
`page_size >= 1` is exactly `(total_items + page_size - 1) / page_size` in
natural division. -/
def paginate_queryset {α : Type} (queryset : List α) (page page_size : Nat) :
    PaginatedResponse α :=
  let total_items := queryset.length
  let total_pages := (total_items + page_size - 1) / page_size
  let skip := (page - 1) * page_size
  let items := (queryset.drop skip).take page_size
  { items := items
    page_info :=
      { total_items := total_items
        total_pages := total_pages
        current_page := page
        page_size := page_size
        has_next := decide (page < total_pages)
        has_previous := decide (page > 1) } }

/-! ### Theorems -/

/-- Helper: on a non-public path, a Bearer token correctly signed with the
configured secret and algorithm, carrying an unexpired `exp` and a parsable
`sub`, makes the middleware set `ctx.user` to the parsed subject — whatever
the `refresh` field says. -/
theorem jwt_middleware_resolves (path : String) (p : Payload) (now e : Int)
    (s : String) (n : Int)
    (hpub : path ∉ PUBLIC_PATHS) (hexp : p.exp = some e)
    (hnow : 0 ≤ now) (hlt : now < e)
    (hsub : p.sub = some s) (hparse : pyInt s = some n) :
    jwt_middleware path (some (.bearer (.signed JWT_SECRET JWT_ALGORITHM p))) now
      = .setUser (some n) := by
  have h0 : ¬ (e = 0) := by omega
  have h1 : ¬ (e ≤ now) := by omega
  have h2 : ¬ (now > e) := by omega
  simp [jwt_middleware, jwtDecode, verifySignature, tokenExpiredAt, hpub, hexp,
    hsub, hparse, h0, h1, h2]

/-- C1 (counterexample): a validly signed, unexpired token carrying the
refresh marker, presented as a Bearer credential on the non-public path
`/api/v1/posts`, makes `jwt_middleware` resolve the subject (`ctx.user = 7`)
instead of leaving the identity anonymous. -/
theorem c1_refresh_token_authenticates_cex :
    jwt_middleware "/api/v1/posts"
        (some (.bearer (.signed JWT_SECRET JWT_ALGORITHM
          { sub := some "7", exp := some 2000, refresh := true }))) 1000
      = .setUser (some 7)
    ∧ jwt_middleware "/api/v1/posts"
        (some (.bearer (.signed JWT_SECRET JWT_ALGORITHM
          { sub := some "7", exp := some 2000, refresh := true }))) 1000
      ≠ .setUser none := by
  decide

/-- C1 (amended): `jwt_middleware` never inspects the refresh marker: every
validly signed, unexpired Bearer token with a parsable `sub` — refresh
tokens included — resolves the request identity to its subject on a
non-public path, so a refresh token CAN be used where an access token is
required. -/
theorem c1_mw_accepts_refresh_token (path : String) (p : Payload)
    (now e : Int) (s : String) (n : Int)
    (hpub : path ∉ PUBLIC_PATHS) (hrefresh : p.refresh = true)
    (hexp : p.exp = some e) (hnow : 0 ≤ now) (hlt : now < e)
    (hsub : p.sub = some s) (hparse : pyInt s = some n) :
    jwt_middleware path (some (.bearer (.signed JWT_SECRET JWT_ALGORITHM p))) now
      = .setUser (some n) :=
  jwt_middleware_resolves path p now e s n hpub hexp hnow hlt hsub hparse

/-- C1 (witness): concrete instance of the amended statement. -/
theorem c1_mw_accepts_refresh_token_witness :
    jwt_middleware "/api/v1/tags"
        (some (.bearer (.signed JWT_SECRET JWT_ALGORITHM
          { sub := some "12", exp := some 500, refresh := true }))) 100
      = .setUser (some 12) :=
  c1_mw_accepts_refresh_token "/api/v1/tags"
    { sub := some "12", exp := some 500, refresh := true } 100 500 "12" 12
    (by decide) rfl rfl (by decide) (by decide) rfl (by decide)

/-- Helper: a successful `jwtDecode` implies the payload was not expired at
`now`. -/
theorem jwtDecode_not_expired {secret alg : String} {now : Int} {t : Token}
    {p : Payload} (h : jwtDecode secret alg now t = some p) :
    tokenExpiredAt now p = false := by
  unfold jwtDecode at h
  cases hv : verifySignature secret alg t with
  | none => rw [hv] at h; simp at h
  | some q =>
    rw [hv] at h
    by_cases he : tokenExpiredAt now q = true
    · simp [he] at h
    · simp [he] at h
      rw [← h]
      exact Bool.eq_false_iff.mpr he

/-- C2 (counterexample): a validly signed, unexpired token whose payload has
no `sub` field makes `jwt_middleware` raise (`int(None)` is a `TypeError`,
not a `PyJWTError`) instead of completing with `ctx.user = None`. -/
theorem c2_mw_raises_on_missing_sub_cex :
    jwt_middleware "/api/v1/posts"
        (some (.bearer (.signed JWT_SECRET JWT_ALGORITHM
          { sub := none, exp := some 2000, refresh := false }))) 1000
      = .pyError
    ∧ jwt_middleware "/api/v1/posts"
        (some (.bearer (.signed JWT_SECRET JWT_ALGORITHM
          { sub := none, exp := some 2000, refresh := false }))) 1000
      ≠ .setUser none := by
  decide

/-- C2 (amended): on a non-public path `jwt_middleware` downgrades to
anonymous (`ctx.user = None`) for a missing header, a non-Bearer header, and
every token the JWT library rejects; but for a validly signed, unexpired
token whose payload lacks `sub` (`int(None)` raises `TypeError`) or whose
`sub` is not an integer string (`int` raises `ValueError`) it propagates an
uncaught error instead. -/
theorem c2_mw_anonymous_on_invalid (path : String) (t : Token)
    (s subs : String) (now : Int) (p : Payload) (e : Int)
    (hpub : path ∉ PUBLIC_PATHS) (hnow : 0 ≤ now) :
    jwt_middleware path none now = .setUser none
  ∧ jwt_middleware path (some (.other s)) now = .setUser none
  ∧ (jwtDecode JWT_SECRET JWT_ALGORITHM now t = none →
      jwt_middleware path (some (.bearer t)) now = .setUser none)
  ∧ (jwtDecode JWT_SECRET JWT_ALGORITHM now t = some p → p.exp = some e →
      p.sub = none → jwt_middleware path (some (.bearer t)) now = .pyError)
  ∧ (jwtDecode JWT_SECRET JWT_ALGORITHM now t = some p → p.exp = some e →
      p.sub = some subs → pyInt subs = none →
      jwt_middleware path (some (.bearer t)) now = .pyError) := by
  refine ⟨by simp [jwt_middleware, hpub], by simp [jwt_middleware, hpub],
    ?_, ?_, ?_⟩
  · intro hdec
    simp [jwt_middleware, hpub, hdec]
  · intro hdec hexp hsub
    have hne : tokenExpiredAt now p = false := jwtDecode_not_expired hdec
    have hlt : now < e := by
      unfold tokenExpiredAt at hne
      rw [hexp] at hne
      simp at hne
      omega
    have h0 : ¬ (e = 0) := by omega
    have h2 : ¬ (now > e) := by omega
    simp [jwt_middleware, hpub, hdec, hexp, hsub, h0, h2]
  · intro hdec hexp hsub hparse
    have hne : tokenExpiredAt now p = false := jwtDecode_not_expired hdec
    have hlt : now < e := by
      unfold tokenExpiredAt at hne
      rw [hexp] at hne
      simp at hne
      omega
    have h0 : ¬ (e = 0) := by omega
    have h2 : ¬ (now > e) := by omega
    simp [jwt_middleware, hpub, hdec, hexp, hsub, hparse, h0, h2]

/-- C2 (witness): concrete instances of the amended statement — anonymous on
an undecodable Bearer token, uncaught error on a signed token without
`sub`, and uncaught error on a signed token whose `sub` is not an integer
string. -/
theorem c2_mw_anonymous_on_invalid_witness :
    jwt_middleware "/api/v1/posts" (some (.bearer (.garbage "xx"))) 5
      = .setUser none
  ∧ jwt_middleware "/api/v1/posts"
      (some (.bearer (.signed JWT_SECRET JWT_ALGORITHM
        { sub := none, exp := some 10, refresh := false }))) 5
      = .pyError
  ∧ jwt_middleware "/api/v1/posts"
      (some (.bearer (.signed JWT_SECRET JWT_ALGORITHM
        { sub := some "abc", exp := some 10, refresh := false }))) 5
      = .pyError :=
  ⟨(c2_mw_anonymous_on_invalid "/api/v1/posts" (.garbage "xx") "y" "z" 5
      { sub := none, exp := some 10, refresh := false } 10
      (by decide) (by decide)).2.2.1 (by decide),
   (c2_mw_anonymous_on_invalid "/api/v1/posts"
      (.signed JWT_SECRET JWT_ALGORITHM { sub := none, exp := some 10, refresh := false })
      "y" "z" 5 { sub := none, exp := some 10, refresh := false } 10
      (by decide) (by decide)).2.2.2.1 (by decide) rfl rfl,
   (c2_mw_anonymous_on_invalid "/api/v1/posts"
      (.signed JWT_SECRET JWT_ALGORITHM { sub := some "abc", exp := some 10, refresh := false })
      "y" "abc" 5 { sub := some "abc", exp := some 10, refresh := false } 10
      (by decide) (by decide)).2.2.2.2 (by decide) rfl rfl (by decide)⟩

/-- C3 (counterexample): a token correctly signed with the configured secret
and algorithm whose `exp` (100) is already past at `now = 2000` does NOT
decode to its payload: `decode_token` returns `None`, because the JWT
library's default options validate `exp` during decoding. -/
theorem c3_decode_token_checks_exp_cex :
    decode_token 2000 (.signed JWT_SECRET JWT_ALGORITHM
        { sub := some "9", exp := some 100, refresh := false }) = none
    ∧ decode_token 2000 (.signed JWT_SECRET JWT_ALGORITHM
        { sub := some "9", exp := some 100, refresh := false })
      ≠ some { sub := some "9", exp := some 100, refresh := false } := by
  decide

/-- C3 (amended): `decode_token` DOES check expiration itself: every
correctly signed token whose `exp` has already passed fails to decode
(returns `None`), so the callers' additional `exp` inspections are
redundant for tokens that carry an `exp`. -/
theorem c3_decode_token_rejects_expired (p : Payload) (now e : Int)
    (hexp : p.exp = some e) (hpast : e < now) :
    decode_token now (.signed JWT_SECRET JWT_ALGORITHM p) = none := by
  have h1 : e ≤ now := le_of_lt hpast
  simp [decode_token, jwtDecode, verifySignature, tokenExpiredAt, hexp, h1]

/-- C3 (witness): concrete instance of the amended statement. -/
theorem c3_decode_token_rejects_expired_witness :
    decode_token 1000 (.signed JWT_SECRET JWT_ALGORITHM
        { sub := some "5", exp := some 500, refresh := false }) = none :=
  c3_decode_token_rejects_expired
    { sub := some "5", exp := some 500, refresh := false } 1000 500 rfl (by decide)

/-- C4 (counterexample): on the public path `/auth/login` with a malformed
`Authorization` header, `jwt_middleware` returns without assigning
`ctx.user` at all (`noSet`), rather than setting the identity to anonymous
(`setUser none`). -/
theorem c4_public_path_no_assignment_cex :
    jwt_middleware "/auth/login" (some (.other "garbage!")) 0 = .noSet
    ∧ jwt_middleware "/auth/login" (some (.other "garbage!")) 0
      ≠ .setUser none := by
  decide

/-- C4 (amended): for every request whose path is in `PUBLIC_PATHS`,
`jwt_middleware` returns without inspecting the `Authorization` header and
without touching `ctx.user` — the request identity is left unset (reading
`request.ctx.user` downstream would raise `AttributeError`), not set to
anonymous. -/
theorem c4_public_path_untouched (path : String) (hdr : Option AuthHeader)
    (now : Int) (hpub : path ∈ PUBLIC_PATHS) :
    jwt_middleware path hdr now = .noSet := by
  simp [jwt_middleware, hpub]

/-- C4 (witness): concrete instance of the amended statement. -/
theorem c4_public_path_untouched_witness :
    jwt_middleware "/auth/register" (some (.other "Basic zzz")) 0 = .noSet :=
  c4_public_path_untouched "/auth/register" (some (.other "Basic zzz")) 0
    (by decide)

/-- C5 (confirmed): given a non-empty refresh token string, the refresh
endpoint answers 401 (`Invalid refresh token`) exactly when signature
verification fails, the token is expired (folded into the library's decode
failure), or the `refresh` marker is absent; and when verification succeeds
on an unexpired payload carrying the marker and a parsable `sub`, it
returns a fresh access token for that embedded subject — the handler makes
no user-table access, so no existence or active check occurs. -/
theorem c5_refresh_route_contract (t : Token) (now : Int) (p : Payload)
    (s : String) (uid : Int)
    (hne : refreshTokenFalsy (some t) = false) :
    (refresh_route (some t) now = .unauthorized ↔ specRefreshInvalid now t = true)
  ∧ (verifySignature JWT_SECRET JWT_ALGORITHM t = some p →
      tokenExpiredAt now p = false → p.refresh = true → p.sub = some s →
      pyInt s = some uid →
      refresh_route (some t) now = .ok (create_access_token uid now)) := by
  constructor
  · unfold refresh_route decode_token jwtDecode specRefreshInvalid
    rw [if_neg (by simp [hne])]
    cases hv : verifySignature JWT_SECRET JWT_ALGORITHM t with
    | none => simp [hv]
    | some q =>
      by_cases he : tokenExpiredAt now q = true
      · simp [hv, he]
      · rw [Bool.not_eq_true] at he
        by_cases hr : q.refresh = false
        · simp [hv, he, hr]
        · rw [Bool.not_eq_false] at hr
          cases hs2 : q.sub with
          | none => simp [hv, he, hr, hs2]
          | some str =>
            cases hpi : pyInt str with
            | none => simp [hv, he, hr, hs2, hpi]
            | some u => simp [hv, he, hr, hs2, hpi]
  · intro hv he hr hs2 hpi
    unfold refresh_route decode_token jwtDecode
    rw [if_neg (by simp [hne])]
    simp [hv, he, hr, hs2, hpi]

/-- C5 (witness): concrete instances — a signed, unexpired refresh token for
subject 3 is exchanged for a new access token, and the 401 condition holds
on a garbage token. -/
theorem c5_refresh_route_contract_witness :
    refresh_route (some (.signed JWT_SECRET JWT_ALGORITHM
        { sub := some "3", exp := some 2000, refresh := true })) 1000
      = .ok (create_access_token 3 1000)
  ∧ refresh_route (some (.garbage "bad")) 1000 = .unauthorized :=
  ⟨(c5_refresh_route_contract
      (.signed JWT_SECRET JWT_ALGORITHM { sub := some "3", exp := some 2000, refresh := true })
      1000 { sub := some "3", exp := some 2000, refresh := true } "3" 3
      (by decide)).2 (by decide) (by decide) rfl rfl (by decide),
   (c5_refresh_route_contract (.garbage "bad") 1000
      { sub := none, exp := none, refresh := false } "0" 0
      (by decide)).1.mpr (by decide)⟩

/-- C6 (confirmed): `authenticate_user` is enumeration-resistant — when no
row carries the requested username, and when a row exists but
`verify_password` rejects the password against its stored digest, the two
outcomes are the identical Python `False` (`PyRes.val none`), with no
distinguishing information. -/
theorem c6_authenticate_enumeration_resistant
    (db1 db2 : List UserRec) (u1 u2 p1 p2 : String) (user : UserRec)
    (habsent : getOrNone db1 u1 = none)
    (hfound : getOrNone db2 u2 = some user)
    (hreject : verify_password p2 user.password_hash = .val false) :
    authenticate_user db1 u1 p1 = authenticate_user db2 u2 p2
  ∧ authenticate_user db1 u1 p1 = .val none := by
  simp [authenticate_user, habsent, hfound, hreject]

/-- C6 (witness): `authenticate_user("nouser", "anypass")` on an empty table
and `authenticate_user("realuser", "wrongpass")` against a stored bcrypt
digest of a different password produce the same `False`. -/
theorem c6_authenticate_enumeration_resistant_witness :
    authenticate_user [] "nouser" "anypass"
      = authenticate_user [{ id := 1, username := "realuser", password_hash := .bcrypt "rightpass" }]
          "realuser" "wrongpass"
  ∧ authenticate_user [] "nouser" "anypass" = .val none :=
  c6_authenticate_enumeration_resistant
    [] [{ id := 1, username := "realuser", password_hash := .bcrypt "rightpass" }]
    "nouser" "realuser" "anypass" "wrongpass"
    { id := 1, username := "realuser", password_hash := .bcrypt "rightpass" }
    (by decide) (by decide) (by decide)

/-- Helper: `(L + s - 1) / s` is the ceiling of `L / s` — bounds and the
zero case, for `s ≥ 1`. -/
theorem ceil_div_bounds (L s : Nat) (hs : 1 ≤ s) :
    L ≤ s * ((L + s - 1) / s)
  ∧ (0 < L → s * ((L + s - 1) / s - 1) < L)
  ∧ ((L + s - 1) / s = 0 ↔ L = 0) := by
  have hs0 : (0 : ℕ) < s := hs
  have hceil : (L + s - 1) / s = L ⌈/⌉ s := (Nat.ceilDiv_eq_add_pred_div L s).symm
  have h1 : L ≤ s * ((L + s - 1) / s) := by
    rw [hceil]
    simpa [smul_eq_mul] using le_smul_ceilDiv (b := L) hs0
  have h3 : (L + s - 1) / s = 0 ↔ L = 0 := by
    constructor
    · intro h
      have h4 := h1
      rw [h, Nat.mul_zero] at h4
      omega
    · intro h
      subst h
      exact Nat.div_eq_of_lt (by omega)
  refine ⟨h1, ?_, h3⟩
  intro hL
  by_contra hcontra
  push_neg at hcontra
  have hle : L ⌈/⌉ s ≤ (L + s - 1) / s - 1 := by
    rw [ceilDiv_le_iff_le_mul hs0]
    simpa [smul_eq_mul] using hcontra
  rw [← hceil] at hle
  have hq1 : 1 ≤ (L + s - 1) / s := by
    rw [Nat.one_le_div_iff hs0]
    omega
  omega

/-- C7 (confirmed): for every collection, `page ≥ 1` and
`1 ≤ page_size ≤ 100`, `paginate_queryset` returns exactly the window of
length `min page_size (total - (page-1)*page_size)` at offset
`(page-1)*page_size`; `total_pages` is `ceil(total/page_size)`
(characterized by its two bounds), `total_pages = 0` iff the collection is
empty, `has_next` iff the current page is before the last, `has_previous`
iff the page is past the first, and a page beyond `total_pages` yields an
empty item list with `has_next = false`. -/
theorem c7_pagination_contract {α : Type} (l : List α) (page page_size : Nat)
    (hp : 1 ≤ page) (hs : 1 ≤ page_size) (hmax : page_size ≤ 100) :
    (paginate_queryset l page page_size).items
        = (l.drop ((page - 1) * page_size)).take page_size
  ∧ (paginate_queryset l page page_size).items.length
        = min page_size (l.length - (page - 1) * page_size)
  ∧ (paginate_queryset l page page_size).page_info.total_items = l.length
  ∧ (paginate_queryset l page page_size).page_info.current_page = page
  ∧ (paginate_queryset l page page_size).page_info.page_size = page_size
  ∧ l.length ≤ page_size * (paginate_queryset l page page_size).page_info.total_pages
  ∧ (0 < l.length →
      page_size * ((paginate_queryset l page page_size).page_info.total_pages - 1)
        < l.length)
  ∧ ((paginate_queryset l page page_size).page_info.total_pages = 0 ↔ l.length = 0)
  ∧ ((paginate_queryset l page page_size).page_info.has_next = true
        ↔ page < (paginate_queryset l page page_size).page_info.total_pages)
  ∧ ((paginate_queryset l page page_size).page_info.has_previous = true ↔ 1 < page)
  ∧ ((paginate_queryset l page page_size).page_info.total_pages < page →
      (paginate_queryset l page page_size).items = []
        ∧ (paginate_queryset l page page_size).page_info.has_next = false) := by
  obtain ⟨hb1, hb2, hb3⟩ := ceil_div_bounds l.length page_size hs
  refine ⟨rfl, ?_, rfl, rfl, rfl, hb1, hb2, hb3, ?_, ?_, ?_⟩
  · simp [paginate_queryset]
  · simp [paginate_queryset]
  · simp [paginate_queryset]
  · intro hbeyond
    have hbeyond2 : (l.length + page_size - 1) / page_size < page := hbeyond
    constructor
    · have hk : l.length ≤ (page - 1) * page_size := by
        calc l.length
            ≤ page_size * ((l.length + page_size - 1) / page_size) := hb1
          _ = ((l.length + page_size - 1) / page_size) * page_size := Nat.mul_comm _ _
          _ ≤ (page - 1) * page_size :=
              Nat.mul_le_mul_right _ (by omega)
      show (l.drop ((page - 1) * page_size)).take page_size = []
      rw [List.drop_eq_nil_of_le hk]
      exact List.take_nil
    · show decide (page < (l.length + page_size - 1) / page_size) = false
      simp
      omega

/-- C7 (witness): 25 items with `page_size = 10`: page 4 is beyond the 3
total pages and yields no items and `has_next = false`. -/
theorem c7_pagination_contract_witness :
    (paginate_queryset (List.range 25) 4 10).items = []
  ∧ (paginate_queryset (List.range 25) 4 10).page_info.has_next = false :=
  (c7_pagination_contract (List.range 25) 4 10 (by decide) (by decide)
    (by decide)).2.2.2.2.2.2.2.2.2.2 (by decide)

/-- C8 (counterexample): issue/verify does not round-trip for every
duration: a token issued with duration `-1` (already expired) fails
verification outright (`decode_token` returns `None`), so no payload with
the subject comes back. -/
theorem c8_round_trip_fails_expired_cex :
    decode_token 1000 (create_token 1 1000 (some (-1)) false) = none
  ∧ decode_token 1000 (create_token 1 1000 (some (-1)) false)
      ≠ some { sub := some "1", exp := some 999, refresh := false } := by
  decide

/-- C8 (amended): the issue/verify round trip holds for every subject and
every truthy (nonzero) duration that has not yet elapsed at verification
time: the decoded payload carries `sub = str(subject)`, the issued `exp`,
and a `refresh` field equal to the `is_refresh` flag.  A negative duration
instead makes verification fail, because the codec checks `exp`; and the
zero `timedelta` is falsy in Python, so `if expires_delta:` routes it to
the default duration rather than issuing an instantly-expiring token. -/
theorem c8_issue_verify_round_trip (subject now d t : Int)
    (htruthy : d ≠ 0) (hunexpired : t < now + d) :
    decode_token t (create_token subject now (some d) false)
        = some { sub := some (toString subject), exp := some (now + d), refresh := false }
  ∧ decode_token t (create_token subject now (some d) true)
        = some { sub := some (toString subject), exp := some (now + d), refresh := true } := by
  have h1 : ¬ (now + d ≤ t) := by omega
  constructor
  · simp [decode_token, jwtDecode, create_token, verifySignature, tokenExpiredAt,
      htruthy, h1]
  · simp [decode_token, jwtDecode, create_token, verifySignature, tokenExpiredAt,
      htruthy, h1]

/-- C8 (side fact): the falsy zero `timedelta` falls through to the default
duration, exactly as an omitted `expires_delta` does. -/
theorem create_token_zero_delta_uses_default (subject now : Int)
    (is_refresh : Bool) :
    create_token subject now (some 0) is_refresh
      = create_token subject now none is_refresh := by
  simp [create_token]

/-- C8 (witness): concrete instance — subject 4, issued at 100 with
duration 50, verified at 120. -/
theorem c8_issue_verify_round_trip_witness :
    decode_token 120 (create_token 4 100 (some 50) false)
        = some { sub := some (toString (4 : Int)), exp := some 150, refresh := false }
  ∧ decode_token 120 (create_token 4 100 (some 50) true)
        = some { sub := some (toString (4 : Int)), exp := some 150, refresh := true } :=
  c8_issue_verify_round_trip 4 100 50 120 (by decide) (by decide)

/-- C9 (counterexample): `verify_password` against a digest passlib cannot
identify does not return `False` — the `UnknownHashError` escapes
(`PyRes.raised`). -/
theorem c9_verify_password_raises_cex :
    verify_password "anypass" (.malformed "not-a-hash") = .raised
  ∧ verify_password "anypass" (.malformed "not-a-hash") ≠ .val false := by
  decide

/-- C9 (amended): `verify_password` returns `False` for a non-matching
password against a well-formed bcrypt digest and `True` for the matching
one, but a malformed digest makes the underlying library raise, and the
exception propagates — verification is not total over digests. -/
theorem c9_verify_password_behavior (plain other s : String)
    (hne : plain ≠ other) :
    verify_password plain (.malformed s) = .raised
  ∧ verify_password plain (.bcrypt other) = .val false
  ∧ verify_password plain (.bcrypt plain) = .val true := by
  refine ⟨rfl, ?_, by simp [verify_password]⟩
  simp [verify_password, hne]

/-- C9 (witness): concrete instance of the amended statement. -/
theorem c9_verify_password_behavior_witness :
    verify_password "alpha" (.malformed "zzz") = .raised
  ∧ verify_password "alpha" (.bcrypt "beta") = .val false
  ∧ verify_password "alpha" (.bcrypt "alpha") = .val true :=
  c9_verify_password_behavior "alpha" "beta" "zzz" (by decide)

/-- C10 (confirmed): the `protected` guard raises `Unauthorized` exactly
when `ctx.user` is Python-falsy — `None` or `0` — and the middleware really
can resolve a validly signed token with `sub = "0"` to subject `0`, which
the guard then rejects exactly like an anonymous request. -/
theorem c10_protected_guard_falsy (u : Option Int) (path : String)
    (now e : Int)
    (hpub : path ∉ PUBLIC_PATHS) (hnow : 0 ≤ now) (hlt : now < e) :
    (protectedRejects u = true ↔ u = none ∨ u = some 0)
  ∧ protectedRejects (some 0) = protectedRejects none
  ∧ jwt_middleware path
      (some (.bearer (.signed JWT_SECRET JWT_ALGORITHM
        { sub := some "0", exp := some e, refresh := false }))) now
      = .setUser (some 0) := by
  refine ⟨?_, rfl, ?_⟩
  · cases u with
    | none => simp [protectedRejects, pyTruthyUser]
    | some n => simp [protectedRejects, pyTruthyUser]
  · exact jwt_middleware_resolves path
      { sub := some "0", exp := some e, refresh := false } now e "0" 0
      hpub rfl hnow hlt rfl (by decide)

/-- C10 (witness): concrete instance — subject id 0 resolved from a token on
a non-public path is rejected by the guard just like `None`. -/
theorem c10_protected_guard_falsy_witness :
    (protectedRejects (some 3) = true ↔ some (3 : Int) = none ∨ some (3 : Int) = some 0)
  ∧ protectedRejects (some 0) = protectedRejects none
  ∧ jwt_middleware "/api/v1/posts"
      (some (.bearer (.signed JWT_SECRET JWT_ALGORITHM
        { sub := some "0", exp := some 100, refresh := false }))) 50
      = .setUser (some 0) :=
  c10_protected_guard_falsy (some 3) "/api/v1/posts" 50 100
    (by decide) (by decide) (by decide)

end SanicDemo
